import Mathlib

/-! # Project manager (client/src/components/projectmanager.js)

A shallow embedding of the dashboard script: the two module globals
(`allProjects`, `activeFilter`), the parts of the page the script writes to,
and the handlers that change them.

Conventions of the embedding.

* The page markup is not among the sources.  It is taken to contain the
  elements the script looks up (`projects-tbody`, the four stat elements and
  stat cards, `toast-container`, `table-loader`, `add-modal`, `confirm-modal`,
  `confirm-message`), with the class
  `stat-card` on each of the four cards, so every `if (el)` guard takes its
  true branch.
* An `async` function is run from its call to its settlement; the response
  the remote store gives is an argument of the function.
* `console.error` output is not tracked.
-/

namespace ProjectManager

/-! ## Strings -/

/-- Lower-casing as `String.prototype.toLowerCase` does it on the letters
`A`..`Z`; every other character is kept.  No character outside `A`..`Z`
lower-cases to a letter of `proposal`, `ongoing` or `completed`, so comparing
the result with one of these three words gives what the script gives. -/
def toLowerCase (s : String) : String :=
  String.mk (s.data.map Char.toLower)

/-- Upper-casing of the letters `a`..`z` (`String.prototype.toUpperCase`). -/
def toUpperCase (s : String) : String :=
  String.mk (s.data.map Char.toUpper)

/-- White space and line terminators of ECMAScript, the characters
`String.prototype.trim` removes. -/
def isWhiteSpace (c : Char) : Bool :=
  let n := c.toNat
  n == 0x09 || n == 0x0A || n == 0x0B || n == 0x0C || n == 0x0D || n == 0x20 ||
  n == 0xA0 || n == 0x1680 || (0x2000 ≤ n && n ≤ 0x200A) || n == 0x2028 ||
  n == 0x2029 || n == 0x202F || n == 0x205F || n == 0x3000 || n == 0xFEFF

/-- The built-in `String.prototype.trim`: white space is dropped from both ends. -/
def trim (s : String) : String :=
  String.mk ((s.data.dropWhile isWhiteSpace).reverse.dropWhile isWhiteSpace).reverse

/-- Truthiness of a value that is a string, `null` or `undefined`
(`none` stands for `null`/`undefined`): only a non-empty string is truthy. -/
def truthy (v : Option String) : Bool :=
  match v with
  | none => false
  | some s => s != ""

/-! ## Data model -/

/-- One row of the `projects` table as `GET /projects` returns it.  The
`status` column is free text (`VARCHAR(50)`). -/
structure Project where
  id : Nat
  student_name : String
  project_title : String
  status : String
  created_at : String := ""
  deriving DecidableEq, Repr

/-- The values `activeFilter` takes besides `null`: the three strings the
stat-card click handlers pass to `filterByStatus`, as the declaration of
`activeFilter` lists them (`null | "proposal" | "ongoing" | "completed"`). -/
inductive StatusFilter where
  | proposal
  | ongoing
  | completed
  deriving DecidableEq, Repr

/-- The string a filter value is in the script. -/
def StatusFilter.value : StatusFilter → String
  | .proposal => "proposal"
  | .ongoing => "ongoing"
  | .completed => "completed"

/-- The four stat cards of the dashboard. -/
inductive Card where
  | total
  | proposal
  | ongoing
  | completed
  deriving DecidableEq, Repr

/-- Content of `#projects-tbody`: the empty-state row with its message and
hint, or one table row per project of the list, in the order of the list. -/
inductive TableBody where
  | emptyState (msg hint : String)
  | rows (projects : List Project)
  deriving DecidableEq, Repr

/-- The projects shown in the table body. -/
def TableBody.projects : TableBody → List Project
  | .emptyState _ _ => []
  | .rows ps => ps

/-- A notification appended to `#toast-container`. -/
structure Toast where
  message : String
  type : String
  deriving DecidableEq, Repr

/-- The numbers written into the four stat elements. -/
structure Stats where
  total : Nat
  proposal : Nat
  ongoing : Nat
  completed : Nat
  deriving DecidableEq, Repr

/-- A request sent to the remote store with `fetch`. -/
inductive Request where
  | getProjects
  | postAddProject (student_name project_title status : String)
  | deleteProject (id : String)
  deriving DecidableEq, Repr

/-- Module globals and the page state the script writes. -/
structure State where
  /-- The global `allProjects` (the cache). -/
  allProjects : List Project := []
  /-- The global `activeFilter`; `none` is `null`. -/
  activeFilter : Option StatusFilter := none
  /-- Content of `#projects-tbody`. -/
  tbody : TableBody := .rows []
  /-- Text of the stat elements. -/
  stats : Stats := ⟨0, 0, 0, 0⟩
  /-- The stat cards that carry the class `stat-active`. -/
  statActive : List Card := []
  /-- Text of `.table-header h3`. -/
  tableTitle : String := "All Projects"
  /-- Notifications emitted so far, oldest first. -/
  toasts : List Toast := []
  /-- Whether `#table-loader` is displayed. -/
  loaderShown : Bool := false
  /-- Whether `#add-modal` carries the class `active`. -/
  addModalActive : Bool := false
  /-- Requests sent so far, oldest first. -/
  requests : List Request := []
  /-- Whether `#confirm-modal` carries the class `active`. -/
  confirmModalActive : Bool := false
  /-- Text of `#confirm-message`. -/
  confirmMessage : String := ""
  /-- The entry `deleteId` of the data set of `#confirm-modal`; `none` when
  the entry is absent.  A data set stores strings. -/
  deleteId : Option String := none
  deriving DecidableEq, Repr

/-- What was thrown inside a `try` block. -/
inductive JSError where
  /-- The promise of `fetch` was rejected. -/
  | network
  /-- Thrown by the script: `new Error(msg)`. -/
  | error (msg : String)
  /-- The promise of `response.json()` was rejected. -/
  | json
  deriving DecidableEq, Repr

/-- How a `fetch` call settles: the promise is rejected, or it resolves to a
response with a status code and a body (`none` when the body is not JSON of
the expected shape, so that `response.json()` is rejected). -/
inductive Response (β : Type) where
  | rejected
  | resolved (status : Nat) (body : Option β)
  deriving DecidableEq, Repr

/-- The `ok` property of a response: the status is in the range 200-299. -/
def Response.ok (status : Nat) : Bool :=
  200 ≤ status && status ≤ 299

/-- JSON body of the answers to `POST /add-project` and
`DELETE /delete-project/:id`: `message` on success, possibly `error` on failure. -/
structure Ack where
  message : Option String := none
  error : Option String := none
  deriving DecidableEq, Repr

/-- Outcome of running an `async` function: the state it leaves and how its
promise settles (`.ok v`: resolved with `v`; `.error e`: `e` escaped). -/
structure Run (α : Type) where
  state : State
  completion : Except JSError α

/-! ## Notifications, loader, modal -/

/-- The function `showToast(message, type)`: appends the notification. -/
def showToast (message type : String) (s : State) : State :=
  { s with toasts := s.toasts ++ [⟨message, type⟩] }

/-- The function `showLoading(isLoading)`. -/
def showLoading (isLoading : Bool) (s : State) : State :=
  { s with loaderShown := isLoading }

/-- The function `closeModal()`: removes `active` from the add modal (the
form fields it resets are an input of each submit). -/
def closeModal (s : State) : State :=
  { s with addModalActive := false }

/-! ## Rendering and filtering -/

/-- The function `renderProjects(projects)`: the empty-state row when the list
is empty, else one row per project. -/
def renderProjects (projects : List Project) (s : State) : State :=
  let emptyMsg := match s.activeFilter with
    | some f => "No " ++ f.value ++ " projects found"
    | none => "No projects found"
  let emptyHint := match s.activeFilter with
    | some _ => "Click another status card or \"Total Projects\" to see all"
    | none => "Click \"Add New Project\" to get started"
  if projects.length == 0 then
    { s with tbody := .emptyState emptyMsg emptyHint }
  else
    { s with tbody := .rows projects }

/-- The function `applyCurrentFilter()`.  Each filter value is a non-empty
string, so `!activeFilter` holds for `null` alone. -/
def applyCurrentFilter (s : State) : State :=
  match s.activeFilter with
  | none => renderProjects s.allProjects s
  | some f =>
    let filtered := s.allProjects.filter (fun p => toLowerCase p.status == f.value)
    renderProjects filtered s

/-- The object `cardMap` of `updateActiveCard`. -/
def cardMap : StatusFilter → Card
  | .proposal => .proposal
  | .ongoing => .ongoing
  | .completed => .completed

/-- The function `updateActiveCard()`: `stat-active` is removed from every stat
card, then added to the card of the active filter, or to the total card. -/
def updateActiveCard (s : State) : State :=
  let s := { s with statActive := [] }
  match s.activeFilter with
  | some f => { s with statActive := s.statActive ++ [cardMap f] }
  | none => { s with statActive := s.statActive ++ [Card.total] }

/-- The function `updateTableTitle()`. -/
def updateTableTitle (s : State) : State :=
  match s.activeFilter with
  | some f =>
    let label := toUpperCase (String.mk (f.value.data.take 1)) ++ String.mk (f.value.data.drop 1)
    { s with tableTitle := label ++ " Projects" }
  | none => { s with tableTitle := "All Projects" }

/-- The function `clearFilter()`. -/
def clearFilter (s : State) : State :=
  let s := { s with activeFilter := none }
  updateTableTitle (updateActiveCard (applyCurrentFilter s))

/-- The function `filterByStatus(status)`. -/
def filterByStatus (status : StatusFilter) (s : State) : State :=
  if s.activeFilter = some status then
    clearFilter s
  else
    let s := { s with activeFilter := some status }
    updateTableTitle (updateActiveCard (applyCurrentFilter s))

/-! ## Statistics -/

/-- The function `updateStats(projects)`: the four numbers it writes. -/
def updateStats (projects : List Project) : Stats :=
  { total := projects.length
    proposal := (projects.filter (fun p => toLowerCase p.status == "proposal")).length
    ongoing := (projects.filter (fun p => toLowerCase p.status == "ongoing")).length
    completed := (projects.filter (fun p => toLowerCase p.status == "completed")).length }

/-! ## Remote calls -/

/-- The `try` block of `fetchProjects`: the state at its end or at the throw,
and what was thrown. -/
def fetchProjects.tryBlock (r : Response (List Project)) (s : State) :
    State × Except JSError Unit :=
  let s := showLoading true s
  let s := { s with requests := s.requests ++ [Request.getProjects] }
  match r with
  | .rejected => (s, .error .network)
  | .resolved status body =>
    if !Response.ok status then
      (s, .error (.error ("Server error: " ++ toString status)))
    else
      match body with
      | none => (s, .error .json)
      | some projects =>
        let s := { s with allProjects := projects }
        let s := { s with stats := updateStats projects }
        (applyCurrentFilter s, .ok ())

/-- The function `fetchProjects()`, given how `GET /projects` settles. -/
def fetchProjects (r : Response (List Project)) (s : State) : Run Unit :=
  let (s, thrown) := fetchProjects.tryBlock r s
  let s := match thrown with
    | .ok _ => s
    | .error _ =>
      showToast "Failed to load projects. Make sure the server is running." "error" s
  { state := showLoading false s, completion := .ok () }

/-- The call of `fetch` in `addProject`, which runs before the first `await`. -/
def addProject.request (studentName projectTitle status : String) (s : State) : State :=
  { s with requests := s.requests ++ [Request.postAddProject studentName projectTitle status] }

/-- The `try` block of `addProject` after the request was sent, given how
`POST /add-project` and the `GET /projects` of the refresh settle. -/
def addProject.tryBlock (r : Response Ack) (refresh : Response (List Project)) (s : State) :
    State × Except JSError Ack :=
  match r with
  | .rejected => (s, .error .network)
  | .resolved status body =>
    if !Response.ok status then
      (s, .error (.error ("Server error: " ++ toString status)))
    else
      match body with
      | none => (s, .error .json)
      | some data =>
        let s := showToast "Project added successfully!" "success" s
        let s := (fetchProjects refresh s).state
        (s, .ok data)

/-- The rest of `addProject` once the request is sent; the promise resolves
with the response data, or with `undefined` (`none`) after the `catch`. -/
def addProject.settle (r : Response Ack) (refresh : Response (List Project)) (s : State) :
    Run (Option Ack) :=
  match addProject.tryBlock r refresh s with
  | (s, .ok data) => { state := s, completion := .ok (some data) }
  | (s, .error _) =>
    { state := showToast "Failed to add project. Please try again." "error" s
      completion := .ok none }

/-- The function `addProject(studentName, projectTitle, status)`. -/
def addProject (studentName projectTitle status : String) (r : Response Ack)
    (refresh : Response (List Project)) (s : State) : Run (Option Ack) :=
  addProject.settle r refresh (addProject.request studentName projectTitle status s)

/-- Values of the add-project form at submit; `none` is a field whose element
is missing, for which the `?.` chain gives `undefined`. -/
structure Form where
  studentName : Option String
  projectTitle : Option String
  status : Option String
  deriving DecidableEq, Repr

/-- The function `handleFormSubmit(e)` up to its return: `addProject` is called
and not awaited, so of `addProject` only the sending of the request runs here. -/
def handleFormSubmit (form : Form) (s : State) : State :=
  let studentName := form.studentName.map trim
  let projectTitle := form.projectTitle.map trim
  let status := form.status
  if !truthy studentName || !truthy projectTitle || !truthy status then
    showToast "Please fill in all fields." "error" s
  else
    closeModal (addProject.request (studentName.getD "") (projectTitle.getD "") (status.getD "") s)

/-! ## Runs of filter clicks -/

/-- A click on a stat card: a status card calls `filterByStatus`, the total
card calls `clearFilter`. -/
inductive FilterAction where
  | filterByStatus (status : StatusFilter)
  | clearFilter
  deriving DecidableEq, Repr

/-- Effect of one click. -/
def FilterAction.run : FilterAction → State → State
  | .filterByStatus status, s => ProjectManager.filterByStatus status s
  | .clearFilter, s => ProjectManager.clearFilter s

/-- Effect of a sequence of clicks, first click first. -/
def runFilterActions (acts : List FilterAction) (s : State) : State :=
  acts.foldl (fun st a => a.run st) s

/-- The state at page load, before the first fetch settles. -/
def State.pageLoad : State := {}

/-- Comparison of two strings that ignores letter case: both sides are
lower-cased, then compared. -/
def caseInsensitiveEq (a b : String) : Bool :=
  toLowerCase a == toLowerCase b

/-- The cache of the filter scenario: three projects, ids 3, 2, 1, with
statuses `Ongoing`, `Completed`, `Proposal`. -/
def scenarioCache : List Project :=
  [ { id := 3, student_name := "Ana", project_title := "Weather station", status := "Ongoing" },
    { id := 2, student_name := "Ben", project_title := "Library index", status := "Completed" },
    { id := 1, student_name := "Cleo", project_title := "Solar oven", status := "Proposal" } ]

/-- The state of the scenario: the page after `GET /projects` answered 200
with `scenarioCache`. -/
def scenarioState : State :=
  (fetchProjects (.resolved 200 (some scenarioCache)) State.pageLoad).state

/-! ## Row markup -/

/-- What `escapeHTML(str)` returns: the `innerHTML` of an element whose text
content is `str`.  Serialising a text node replaces `&`, the no-break space,
`<` and `>`, and nothing else. -/
def escapeHTML (str : String) : String :=
  String.join (str.data.map fun c =>
    if c = '&' then "&amp;"
    else if c = Char.ofNat 0xA0 then "&nbsp;"
    else if c = '<' then "&lt;"
    else if c = '>' then "&gt;"
    else String.singleton c)

/-- Membership in the character class `[a-z0-9]`. -/
def isSlugChar (c : Char) : Bool :=
  ('a' ≤ c && c ≤ 'z') || ('0' ≤ c && c ≤ '9')

/-- The replacement `.replace(/[^a-z0-9]+/g, "-")` as a scan from the left:
`inRun` tells that the character before was outside `[a-z0-9]`, so the match
that started there goes on and the `-` for it is already written. -/
def replaceRuns (inRun : Bool) : List Char → List Char
  | [] => []
  | c :: cs =>
    if isSlugChar c then c :: replaceRuns false cs
    else if inRun then replaceRuns true cs
    else '-' :: replaceRuns true cs

/-- The alternative `-$` of the second replacement: a `-` that is the last
character is removed. -/
def stripTrailingDash : List Char → List Char
  | [] => []
  | [c] => if c = '-' then [] else [c]
  | c :: d :: cs => c :: stripTrailingDash (d :: cs)

/-- The replacement `.replace(/(^-|-$)/g, "")`: a `-` that is the first
character is removed, and a `-` that is the last character of what is left. -/
def stripEdgeDashes (l : List Char) : List Char :=
  match l with
  | '-' :: cs => stripTrailingDash cs
  | _ => stripTrailingDash l

/-- The function `slugify(str)`: lower-casing (as `toLowerCase` above), then the
two replacements, which do not depend on how the string was lower-cased. -/
def slugify (str : String) : String :=
  String.mk (stripEdgeDashes (replaceRuns false (toLowerCase str).data))

/-- The avatar text `project.student_name.charAt(0).toUpperCase()`. -/
def avatarInitial (project : Project) : String :=
  toUpperCase (String.mk (project.student_name.data.take 1))

/-- The text the row template writes between `onclick="` and the closing `"`
of the delete button. -/
def onclickValue (project : Project) : String :=
  "confirmDelete(" ++ toString project.id ++ ", '" ++ escapeHTML project.project_title ++ "')"

/-- The row template of `renderProjects` for one project; `TableBody.rows ps`
stands for these rows joined over `ps`.  The text of `index * 0.05`, a
floating-point product, is the argument `delay`. -/
def rowMarkup (delay : String) (project : Project) : String :=
  "\n" ++
  "    <tr class=\"fade-in\" style=\"animation-delay: " ++
  delay ++
  "s\">\n" ++
  "      <td class=\"id-cell\">" ++
  toString project.id ++
  "</td>\n" ++
  "      <td>\n" ++
  "        <div class=\"student-info\">\n" ++
  "          <div class=\"avatar\">" ++
  avatarInitial project ++
  "</div>\n" ++
  "          <span>" ++
  escapeHTML project.student_name ++
  "</span>\n" ++
  "        </div>\n" ++
  "      </td>\n" ++
  "      <td class=\"project-title-cell\">" ++
  escapeHTML project.project_title ++
  "</td>\n" ++
  "      <td>\n" ++
  "        <span class=\"status-badge status-" ++
  slugify project.status ++
  "\">\n" ++
  "          " ++
  escapeHTML project.status ++
  "\n" ++
  "        </span>\n" ++
  "      </td>\n" ++
  "      <td>\n" ++
  "        <button class=\"btn-delete\" onclick=\"" ++
  onclickValue project ++
  "\" title=\"Delete project\">\n" ++
  "          <svg width=\"16\" height=\"16\" viewBox=\"0 0 24 24\" fill=\"none\" stroke=\"currentColor\" stroke-width=\"2\">\n" ++
  "            <polyline points=\"3 6 5 6 21 6\"></polyline>\n" ++
  "            <path d=\"M19 6v14a2 2 0 01-2 2H7a2 2 0 01-2-2V6m3 0V4a2 2 0 012-2h4a2 2 0 012 2v2\"></path>\n" ++
  "            <line x1=\"10\" y1=\"11\" x2=\"10\" y2=\"17\"></line>\n" ++
  "            <line x1=\"14\" y1=\"11\" x2=\"14\" y2=\"17\"></line>\n" ++
  "          </svg>\n" ++
  "        </button>\n" ++
  "      </td>\n" ++
  "    </tr>\n" ++
  "  "

/-! ## Two-phase delete -/

/-- The call of `fetch` in `deleteProject`, which runs before the first `await`. -/
def deleteProject.request (id : String) (s : State) : State :=
  { s with requests := s.requests ++ [Request.deleteProject id] }

/-- The `try` block of `deleteProject` after the request was sent, given how
`DELETE /delete-project/:id` and the `GET /projects` of the refresh settle. -/
def deleteProject.tryBlock (r : Response Ack) (refresh : Response (List Project)) (s : State) :
    State × Except JSError Ack :=
  match r with
  | .rejected => (s, .error .network)
  | .resolved status body =>
    if !Response.ok status then
      (s, .error (.error ("Server error: " ++ toString status)))
    else
      match body with
      | none => (s, .error .json)
      | some data =>
        let s := showToast "Project deleted successfully!" "success" s
        let s := (fetchProjects refresh s).state
        (s, .ok data)

/-- The rest of `deleteProject` once the request is sent; the promise resolves
with the response data, or with `undefined` (`none`) after the `catch`. -/
def deleteProject.settle (r : Response Ack) (refresh : Response (List Project)) (s : State) :
    Run (Option Ack) :=
  match deleteProject.tryBlock r refresh s with
  | (s, .ok data) => { state := s, completion := .ok (some data) }
  | (s, .error _) =>
    { state := showToast "Failed to delete project. Please try again." "error" s
      completion := .ok none }

/-- The function `deleteProject(id)`. -/
def deleteProject (id : String) (r : Response Ack) (refresh : Response (List Project))
    (s : State) : Run (Option Ack) :=
  deleteProject.settle r refresh (deleteProject.request id s)

/-- The function `confirmDelete(id, title)`; the number `id` is stored in the
data set as its decimal string. -/
def confirmDelete (id : Nat) (title : String) (s : State) : State :=
  let s := { s with confirmMessage := "Are you sure you want to delete \"" ++ title ++ "\"?" }
  let s := { s with confirmModalActive := true }
  { s with deleteId := some (toString id) }

/-- The function `executeDelete()` up to its return: `deleteProject` is called
and not awaited, so of `deleteProject` only the sending of the request runs
here. -/
def executeDelete (s : State) : State :=
  if truthy s.deleteId then
    let s := deleteProject.request (s.deleteId.getD "") s
    let s := { s with confirmModalActive := false }
    { s with deleteId := none }
  else
    s

/-- The function `cancelDelete()`. -/
def cancelDelete (s : State) : State :=
  let s := { s with confirmModalActive := false }
  { s with deleteId := none }

/-- A call of one of the three delete handlers. -/
inductive DeleteAction where
  | confirmDelete (id : Nat) (title : String)
  | executeDelete
  | cancelDelete
  deriving DecidableEq, Repr

/-- Effect of one call. -/
def DeleteAction.run : DeleteAction → State → State
  | .confirmDelete id title, s => ProjectManager.confirmDelete id title s
  | .executeDelete, s => ProjectManager.executeDelete s
  | .cancelDelete, s => ProjectManager.cancelDelete s

/-- Effect of a sequence of calls, first call first. -/
def runDeleteActions (acts : List DeleteAction) (s : State) : State :=
  acts.foldl (fun st a => a.run st) s

/-- The delete requests a sequence of calls is to issue, in the words of the
two-phase rule: `pending` is the id of the last `confirmDelete` with no
`executeDelete` or `cancelDelete` after it; an `executeDelete` issues the
delete for the pending id, if there is one, and clears it; a `cancelDelete`
clears it; a `confirmDelete` issues nothing. -/
def expectedDeletes (pending : Option Nat) : List DeleteAction → List Request
  | [] => []
  | .confirmDelete id _ :: rest => expectedDeletes (some id) rest
  | .executeDelete :: rest =>
    (match pending with
      | some id => [Request.deleteProject (toString id)]
      | none => []) ++ expectedDeletes none rest
  | .cancelDelete :: rest => expectedDeletes none rest

/-- A project whose title holds a double quote. -/
def doubleQuoteTitle : Project :=
  { id := 5, student_name := "<Ana>", project_title := "x\" onmouseover=\"alert(1)",
    status := "Ongoing" }

/-- A project whose title holds a single quote. -/
def singleQuoteTitle : Project :=
  { id := 6, student_name := "Ben", project_title := "x'); alert(1); ('", status := "Ongoing" }

/-- In the words of the slug rule: each maximal run of characters outside
`[a-z0-9]` gives one `-`; the other characters are kept. -/
def collapseRuns : List Char → List Char
  | [] => []
  | c :: cs =>
    if isSlugChar c then c :: collapseRuns cs
    else '-' :: collapseRuns (cs.dropWhile (fun d => !isSlugChar d))
termination_by l => l.length
decreasing_by
  · simp_wf
  · simp_wf
    exact Nat.lt_succ_of_le (List.dropWhile_sublist _).length_le

/-- Removal of every `-` at the start and at the end of a list. -/
def trimDashes (l : List Char) : List Char :=
  ((l.dropWhile (fun c => c == '-')).reverse.dropWhile (fun c => c == '-')).reverse

/-- The slug in the words of the rule: the lower-cased string, its runs
collapsed, without leading or trailing `-`. -/
def slugifySpec (str : String) : String :=
  String.mk (trimDashes (collapseRuns (toLowerCase str).data))

/-- No two `-` stand next to each other in the list. -/
def NoDoubleDash (l : List Char) : Prop :=
  List.Chain' (fun a b => ¬(a = '-' ∧ b = '-')) l

/-! ## Frame lemmas -/

theorem renderProjects_projects (ps : List Project) (s : State) :
    (renderProjects ps s).tbody.projects = ps := by
  unfold renderProjects
  cases ps with
  | nil => simp [TableBody.projects]
  | cons p ps => simp [TableBody.projects]

theorem renderProjects_frame (ps : List Project) (s : State) :
    (renderProjects ps s).allProjects = s.allProjects ∧
    (renderProjects ps s).activeFilter = s.activeFilter ∧
    (renderProjects ps s).stats = s.stats ∧
    (renderProjects ps s).toasts = s.toasts ∧
    (renderProjects ps s).requests = s.requests ∧
    (renderProjects ps s).statActive = s.statActive := by
  unfold renderProjects
  dsimp only
  split_ifs <;> simp

theorem applyCurrentFilter_frame (s : State) :
    (applyCurrentFilter s).allProjects = s.allProjects ∧
    (applyCurrentFilter s).activeFilter = s.activeFilter ∧
    (applyCurrentFilter s).stats = s.stats ∧
    (applyCurrentFilter s).toasts = s.toasts ∧
    (applyCurrentFilter s).requests = s.requests ∧
    (applyCurrentFilter s).statActive = s.statActive := by
  unfold applyCurrentFilter
  split <;> exact renderProjects_frame _ _

theorem updateActiveCard_frame (s : State) :
    (updateActiveCard s).allProjects = s.allProjects ∧
    (updateActiveCard s).activeFilter = s.activeFilter ∧
    (updateActiveCard s).stats = s.stats ∧
    (updateActiveCard s).toasts = s.toasts ∧
    (updateActiveCard s).requests = s.requests ∧
    (updateActiveCard s).tbody = s.tbody := by
  unfold updateActiveCard
  cases h : s.activeFilter <;> simp [h]

theorem updateTableTitle_frame (s : State) :
    (updateTableTitle s).allProjects = s.allProjects ∧
    (updateTableTitle s).activeFilter = s.activeFilter ∧
    (updateTableTitle s).stats = s.stats ∧
    (updateTableTitle s).toasts = s.toasts ∧
    (updateTableTitle s).requests = s.requests ∧
    (updateTableTitle s).tbody = s.tbody ∧
    (updateTableTitle s).statActive = s.statActive := by
  unfold updateTableTitle
  cases h : s.activeFilter <;> simp

theorem applyCurrentFilter_projects (s : State) :
    (applyCurrentFilter s).tbody.projects =
      match s.activeFilter with
      | none => s.allProjects
      | some f => s.allProjects.filter (fun p => toLowerCase p.status == f.value) := by
  unfold applyCurrentFilter
  cases h : s.activeFilter <;> simp [renderProjects_projects]

theorem clearFilter_spec (s : State) :
    (clearFilter s).activeFilter = none ∧
    (clearFilter s).allProjects = s.allProjects ∧
    (clearFilter s).stats = s.stats ∧
    (clearFilter s).toasts = s.toasts ∧
    (clearFilter s).requests = s.requests ∧
    (clearFilter s).statActive = [Card.total] ∧
    (clearFilter s).tbody.projects = s.allProjects := by
  unfold clearFilter
  simp only [(updateTableTitle_frame _).1, (updateTableTitle_frame _).2.1,
    (updateTableTitle_frame _).2.2.1, (updateTableTitle_frame _).2.2.2.1,
    (updateTableTitle_frame _).2.2.2.2.1, (updateTableTitle_frame _).2.2.2.2.2.1,
    (updateTableTitle_frame _).2.2.2.2.2.2,
    (updateActiveCard_frame _).1, (updateActiveCard_frame _).2.1,
    (updateActiveCard_frame _).2.2.1, (updateActiveCard_frame _).2.2.2.1,
    (updateActiveCard_frame _).2.2.2.2.1, (updateActiveCard_frame _).2.2.2.2.2,
    (applyCurrentFilter_frame _).1, (applyCurrentFilter_frame _).2.1,
    (applyCurrentFilter_frame _).2.2.1, (applyCurrentFilter_frame _).2.2.2.1,
    (applyCurrentFilter_frame _).2.2.2.2.1, applyCurrentFilter_projects]
  refine ⟨trivial, trivial, trivial, trivial, trivial, ?_, trivial⟩
  simp [updateActiveCard, (applyCurrentFilter_frame _).2.1]

theorem filterByStatus_set (status : StatusFilter) (s : State)
    (h : s.activeFilter ≠ some status) :
    (filterByStatus status s).activeFilter = some status ∧
    (filterByStatus status s).allProjects = s.allProjects ∧
    (filterByStatus status s).stats = s.stats ∧
    (filterByStatus status s).toasts = s.toasts ∧
    (filterByStatus status s).requests = s.requests ∧
    (filterByStatus status s).statActive = [cardMap status] ∧
    (filterByStatus status s).tbody.projects =
      s.allProjects.filter (fun p => toLowerCase p.status == status.value) := by
  unfold filterByStatus
  rw [if_neg h]
  simp only [(updateTableTitle_frame _).1, (updateTableTitle_frame _).2.1,
    (updateTableTitle_frame _).2.2.1, (updateTableTitle_frame _).2.2.2.1,
    (updateTableTitle_frame _).2.2.2.2.1, (updateTableTitle_frame _).2.2.2.2.2.1,
    (updateTableTitle_frame _).2.2.2.2.2.2,
    (updateActiveCard_frame _).1, (updateActiveCard_frame _).2.1,
    (updateActiveCard_frame _).2.2.1, (updateActiveCard_frame _).2.2.2.1,
    (updateActiveCard_frame _).2.2.2.2.1, (updateActiveCard_frame _).2.2.2.2.2,
    (applyCurrentFilter_frame _).1, (applyCurrentFilter_frame _).2.1,
    (applyCurrentFilter_frame _).2.2.1, (applyCurrentFilter_frame _).2.2.2.1,
    (applyCurrentFilter_frame _).2.2.2.2.1, applyCurrentFilter_projects]
  refine ⟨trivial, trivial, trivial, trivial, trivial, ?_, trivial⟩
  simp [updateActiveCard, (applyCurrentFilter_frame _).2.1]

theorem filterByStatus_same (status : StatusFilter) (s : State)
    (h : s.activeFilter = some status) :
    filterByStatus status s = clearFilter s := by
  unfold filterByStatus
  rw [if_pos h]

theorem filterByStatus_activeFilter (status : StatusFilter) (s : State) :
    (filterByStatus status s).activeFilter =
      if s.activeFilter = some status then none else some status := by
  by_cases h : s.activeFilter = some status
  · rw [filterByStatus_same status s h, if_pos h]
    exact (clearFilter_spec s).1
  · rw [if_neg h]
    exact (filterByStatus_set status s h).1

theorem filterByStatus_frame (status : StatusFilter) (s : State) :
    (filterByStatus status s).allProjects = s.allProjects ∧
    (filterByStatus status s).stats = s.stats ∧
    (filterByStatus status s).toasts = s.toasts ∧
    (filterByStatus status s).requests = s.requests := by
  by_cases h : s.activeFilter = some status
  · rw [filterByStatus_same status s h]
    have := clearFilter_spec s
    exact ⟨this.2.1, this.2.2.1, this.2.2.2.1, this.2.2.2.2.1⟩
  · have := filterByStatus_set status s h
    exact ⟨this.2.1, this.2.2.1, this.2.2.2.1, this.2.2.2.2.1⟩

theorem toLowerCase_value (f : StatusFilter) : toLowerCase f.value = f.value := by
  cases f <;> decide

theorem at_most_one_active (o : Option StatusFilter) :
    ([StatusFilter.proposal, StatusFilter.ongoing, StatusFilter.completed].filter
      (fun x => o == some x)).length ≤ 1 := by
  cases o with
  | none => decide
  | some a => cases a <;> decide

/-! ## Filter engine -/

/-- C1: whatever the cache `C` and the filter state `f`, the list
`applyCurrentFilter` hands to `renderProjects` is a sublist of `C` (same
relative order), and with no active filter it is `C` itself. -/
theorem applyCurrentFilter_sublist_of_cache (s : State) (C : List Project)
    (f : Option StatusFilter) :
    List.Sublist
      (applyCurrentFilter { s with allProjects := C, activeFilter := f }).tbody.projects C ∧
    (applyCurrentFilter { s with allProjects := C, activeFilter := none }).tbody.projects = C := by
  constructor
  · rw [applyCurrentFilter_projects]
    cases f with
    | none => exact List.Sublist.refl C
    | some f => exact List.filter_sublist C
  · rw [applyCurrentFilter_projects]

/-- C2: with an active filter `f`, the list `applyCurrentFilter` shows is the
cache restricted to the records whose status equals `f` up to letter case:
every such record of the cache is shown, no other record is, and the order
of the cache is kept. -/
theorem applyCurrentFilter_exactly_matching (s : State) (C : List Project)
    (f : StatusFilter) :
    (applyCurrentFilter { s with allProjects := C, activeFilter := some f }).tbody.projects
        = C.filter (fun p => caseInsensitiveEq p.status f.value) ∧
    (∀ p, p ∈ (applyCurrentFilter
              { s with allProjects := C, activeFilter := some f }).tbody.projects
          ↔ (p ∈ C ∧ caseInsensitiveEq p.status f.value = true)) ∧
    List.Sublist
      (applyCurrentFilter { s with allProjects := C, activeFilter := some f }).tbody.projects
      C := by
  have key : (applyCurrentFilter
        { s with allProjects := C, activeFilter := some f }).tbody.projects
        = C.filter (fun p => caseInsensitiveEq p.status f.value) := by
    rw [applyCurrentFilter_projects]
    simp only [caseInsensitiveEq, toLowerCase_value]
  refine ⟨key, ?_, ?_⟩
  · intro p
    rw [key, List.mem_filter]
  · rw [key]
    exact List.filter_sublist C

/-- C3: `filterByStatus(r)` in filter state `a` leaves `activeFilter` at `null`
when `r` is `a` and at `r` otherwise, leaves the cache as it was, and leaves at
most one status active (and at most one stat card highlighted). -/
theorem filterByStatus_toggle (s : State) (a : Option StatusFilter) (r : StatusFilter) :
    (filterByStatus r { s with activeFilter := a }).activeFilter
        = (if a = some r then none else some r) ∧
    (filterByStatus r { s with activeFilter := a }).allProjects = s.allProjects ∧
    ([StatusFilter.proposal, StatusFilter.ongoing, StatusFilter.completed].filter
        (fun x => (filterByStatus r { s with activeFilter := a }).activeFilter == some x)).length
        ≤ 1 ∧
    (filterByStatus r { s with activeFilter := a }).statActive.length ≤ 1 := by
  have h1 := filterByStatus_activeFilter r { s with activeFilter := a }
  have h2 := (filterByStatus_frame r { s with activeFilter := a }).1
  refine ⟨h1, h2, ?_, ?_⟩
  · exact at_most_one_active _
  · by_cases h : ({ s with activeFilter := a } : State).activeFilter = some r
    · rw [filterByStatus_same r _ h, (clearFilter_spec _).2.2.2.2.2.1]
      decide
    · rw [(filterByStatus_set r _ h).2.2.2.2.2.1]
      exact Nat.le_refl 1

/-- C4, as the claim states it, fails: when `ongoing` is already the active
filter, two further calls of `filterByStatus("ongoing")` clear it and set it
again, so `activeFilter` ends at `"ongoing"`, not at `null`. -/
theorem third_click_restores_filter :
    (filterByStatus .ongoing (filterByStatus .ongoing
        (filterByStatus .ongoing State.pageLoad))).activeFilter = some .ongoing ∧
    (filterByStatus .ongoing (filterByStatus .ongoing
        (filterByStatus .ongoing State.pageLoad))).activeFilter ≠ none := by
  decide

/-- C4, amended: two calls of `filterByStatus(s)` in a row leave `activeFilter`
at `null` when the filter before them is not `s`, and at `s` when it is `s`. -/
theorem filterByStatus_twice (s : State) (status : StatusFilter) :
    (filterByStatus status (filterByStatus status s)).activeFilter
      = if s.activeFilter = some status then some status else none := by
  rw [filterByStatus_activeFilter, filterByStatus_activeFilter]
  by_cases h : s.activeFilter = some status
  · simp [h]
  · simp [h]

/-! ## Stats aggregator -/

/-- C5: for every list of projects, `updateStats` writes its length as the
total, and for each of `proposal`, `ongoing`, `completed` the number of
records whose lower-cased status is that word. -/
theorem updateStats_counts (C : List Project) :
    (updateStats C).total = C.length ∧
    (updateStats C).proposal = (C.map (fun p => toLowerCase p.status)).count "proposal" ∧
    (updateStats C).ongoing = (C.map (fun p => toLowerCase p.status)).count "ongoing" ∧
    (updateStats C).completed = (C.map (fun p => toLowerCase p.status)).count "completed" := by
  refine ⟨rfl, ?_, ?_, ?_⟩ <;>
  · rw [List.count, List.countP_map, List.countP_eq_length_filter]
    rfl

theorem buckets_le_length (C : List Project) :
    (C.filter (fun p => toLowerCase p.status == "proposal")).length +
    (C.filter (fun p => toLowerCase p.status == "ongoing")).length +
    (C.filter (fun p => toLowerCase p.status == "completed")).length ≤ C.length := by
  induction C with
  | nil => simp
  | cons p ps ih =>
    simp only [List.filter_cons, List.length_cons]
    by_cases h1 : toLowerCase p.status = "proposal"
    · simp only [h1]
      simp
      omega
    · by_cases h2 : toLowerCase p.status = "ongoing"
      · simp only [h2]
        simp
        omega
      · by_cases h3 : toLowerCase p.status = "completed"
        · simp only [h3]
          simp
          omega
        · simp [h1, h2, h3]
          omega

/-- C6: for every list of projects the total is its length and the three
buckets together do not exceed the total; a record whose lower-cased status
is none of `proposal`, `ongoing`, `completed`, wherever it stands in the list,
adds one to the total and nothing to any bucket. -/
theorem updateStats_total_and_buckets (C C₁ C₂ : List Project) (p : Project)
    (hp : toLowerCase p.status ≠ "proposal" ∧ toLowerCase p.status ≠ "ongoing" ∧
      toLowerCase p.status ≠ "completed") :
    (updateStats C).total = C.length ∧
    (updateStats C).proposal + (updateStats C).ongoing + (updateStats C).completed
      ≤ (updateStats C).total ∧
    (updateStats (C₁ ++ p :: C₂)).total = (updateStats (C₁ ++ C₂)).total + 1 ∧
    (updateStats (C₁ ++ p :: C₂)).proposal = (updateStats (C₁ ++ C₂)).proposal ∧
    (updateStats (C₁ ++ p :: C₂)).ongoing = (updateStats (C₁ ++ C₂)).ongoing ∧
    (updateStats (C₁ ++ p :: C₂)).completed = (updateStats (C₁ ++ C₂)).completed := by
  obtain ⟨h1, h2, h3⟩ := hp
  refine ⟨rfl, buckets_le_length C, ?_, ?_, ?_, ?_⟩
  · simp [updateStats]
    omega
  · simp [updateStats, List.filter_cons, h1]
  · simp [updateStats, List.filter_cons, h2]
  · simp [updateStats, List.filter_cons, h3]

/-- Witness of C6 on the scenario cache with a record of status `On hold`
inserted in second place. -/
theorem updateStats_total_and_buckets_witness :
    (updateStats scenarioCache).total = scenarioCache.length ∧
    (updateStats scenarioCache).proposal + (updateStats scenarioCache).ongoing +
      (updateStats scenarioCache).completed ≤ (updateStats scenarioCache).total ∧
    (updateStats (scenarioCache.take 1 ++
        { id := 4, student_name := "Dee", project_title := "Kiln", status := "On hold" } ::
        scenarioCache.drop 1)).total
      = (updateStats (scenarioCache.take 1 ++ scenarioCache.drop 1)).total + 1 :=
  have h := updateStats_total_and_buckets scenarioCache (scenarioCache.take 1)
    (scenarioCache.drop 1)
    { id := 4, student_name := "Dee", project_title := "Kiln", status := "On hold" }
    (by decide)
  ⟨h.1, h.2.1, h.2.2.1⟩

/-! ## Project cache -/

theorem fetchProjects_completion (r : Response (List Project)) (s : State) :
    (fetchProjects r s).completion = .ok () := rfl

theorem fetchProjects_success (s : State) (status : Nat) (P : List Project)
    (hok : Response.ok status = true) :
    (fetchProjects (.resolved status (some P)) s).state.allProjects = P ∧
    (fetchProjects (.resolved status (some P)) s).state.stats = updateStats P ∧
    (fetchProjects (.resolved status (some P)) s).state.activeFilter = s.activeFilter ∧
    (fetchProjects (.resolved status (some P)) s).state.toasts = s.toasts := by
  simp only [fetchProjects, fetchProjects.tryBlock, hok, showLoading]
  simp [(applyCurrentFilter_frame _).1, (applyCurrentFilter_frame _).2.1,
    (applyCurrentFilter_frame _).2.2.1, (applyCurrentFilter_frame _).2.2.2.1]

theorem fetchProjects_rejected (s : State) :
    (fetchProjects .rejected s).state.allProjects = s.allProjects ∧
    (fetchProjects .rejected s).state.stats = s.stats ∧
    (fetchProjects .rejected s).state.activeFilter = s.activeFilter ∧
    (fetchProjects .rejected s).state.toasts = s.toasts ++
      [⟨"Failed to load projects. Make sure the server is running.", "error"⟩] := by
  simp [fetchProjects, fetchProjects.tryBlock, showLoading, showToast]

theorem fetchProjects_not_ok (s : State) (status : Nat) (body : Option (List Project))
    (hok : Response.ok status = false) :
    (fetchProjects (.resolved status body) s).state.allProjects = s.allProjects ∧
    (fetchProjects (.resolved status body) s).state.stats = s.stats ∧
    (fetchProjects (.resolved status body) s).state.activeFilter = s.activeFilter ∧
    (fetchProjects (.resolved status body) s).state.toasts = s.toasts ++
      [⟨"Failed to load projects. Make sure the server is running.", "error"⟩] := by
  simp [fetchProjects, fetchProjects.tryBlock, hok, showLoading, showToast]

theorem runFilterActions_frame (acts : List FilterAction) (s : State) :
    (runFilterActions acts s).allProjects = s.allProjects ∧
    (runFilterActions acts s).stats = s.stats := by
  induction acts generalizing s with
  | nil => exact ⟨rfl, rfl⟩
  | cons a acts ih =>
    have step : (a.run s).allProjects = s.allProjects ∧ (a.run s).stats = s.stats := by
      cases a with
      | filterByStatus status =>
        exact ⟨(filterByStatus_frame status s).1, (filterByStatus_frame status s).2.1⟩
      | clearFilter => exact ⟨(clearFilter_spec s).2.1, (clearFilter_spec s).2.2.1⟩
    have h := ih (a.run s)
    simp only [runFilterActions, List.foldl_cons] at h ⊢
    exact ⟨h.1.trans step.1, h.2.trans step.2⟩

/-- C7: after a fetch that answered 2xx with the collection `P`, whatever
sequence of `filterByStatus` / `clearFilter` calls follows, the cache is still
`P` and the displayed stats are those of the whole of `P`.  In the scenario
(ids 3, 2, 1 with statuses `Ongoing`, `Completed`, `Proposal`) the first
`filterByStatus("ongoing")` shows the record with id 3 alone, the second shows
all three records, and the stats read 3, 1, 1, 1 at each of the three steps;
they are not the stats of the filtered list. -/
theorem stats_unaffected_by_filter (s₀ : State) (status : Nat) (P : List Project)
    (acts : List FilterAction) (hok : Response.ok status = true) :
    (runFilterActions acts (fetchProjects (.resolved status (some P)) s₀).state).stats
      = updateStats P ∧
    (runFilterActions acts (fetchProjects (.resolved status (some P)) s₀).state).allProjects
      = P ∧
    scenarioState.stats = ⟨3, 1, 1, 1⟩ ∧
    (filterByStatus .ongoing scenarioState).tbody.projects = scenarioCache.take 1 ∧
    (filterByStatus .ongoing scenarioState).stats = ⟨3, 1, 1, 1⟩ ∧
    (filterByStatus .ongoing scenarioState).stats
      ≠ updateStats (filterByStatus .ongoing scenarioState).tbody.projects ∧
    (filterByStatus .ongoing (filterByStatus .ongoing scenarioState)).tbody.projects
      = scenarioCache ∧
    (filterByStatus .ongoing (filterByStatus .ongoing scenarioState)).stats = ⟨3, 1, 1, 1⟩ := by
  have hf := runFilterActions_frame acts (fetchProjects (.resolved status (some P)) s₀).state
  have hs := fetchProjects_success s₀ status P hok
  refine ⟨hf.2.trans hs.2.1, hf.1.trans hs.1, ?_, ?_, ?_, ?_, ?_, ?_⟩ <;> decide

/-- Witness of C7: the general part at the scenario itself, a 200 answer
carrying the scenario cache followed by two clicks on the ongoing card. -/
theorem stats_unaffected_by_filter_witness :
    Response.ok 200 = true ∧
    (runFilterActions [.filterByStatus .ongoing, .filterByStatus .ongoing]
      (fetchProjects (.resolved 200 (some scenarioCache)) State.pageLoad).state).stats
      = updateStats scenarioCache :=
  ⟨by decide,
   (stats_unaffected_by_filter State.pageLoad 200 scenarioCache
      [.filterByStatus .ongoing, .filterByStatus .ongoing] (by decide)).1⟩

/-- C8: when `GET /projects` answers 2xx with the collection `P`, the cache
after `fetchProjects` is `P`, whatever it was before; when the call is rejected
or answers a status outside 2xx, the cache is what it was, the error
notification is emitted, and in every case the promise of `fetchProjects`
resolves, so nothing thrown escapes. -/
theorem fetchProjects_replaces_or_keeps (s : State) (status : Nat) (P : List Project)
    (body : Option (List Project)) (r : Response (List Project)) :
    (Response.ok status = true →
      (fetchProjects (.resolved status (some P)) s).state.allProjects = P) ∧
    (Response.ok status = false →
      (fetchProjects (.resolved status body) s).state.allProjects = s.allProjects ∧
      (fetchProjects (.resolved status body) s).state.toasts = s.toasts ++
        [⟨"Failed to load projects. Make sure the server is running.", "error"⟩]) ∧
    ((fetchProjects .rejected s).state.allProjects = s.allProjects ∧
      (fetchProjects .rejected s).state.toasts = s.toasts ++
        [⟨"Failed to load projects. Make sure the server is running.", "error"⟩]) ∧
    (fetchProjects r s).completion = .ok () := by
  refine ⟨fun hok => (fetchProjects_success s status P hok).1, fun hok => ?_, ?_, rfl⟩
  · exact ⟨(fetchProjects_not_ok s status body hok).1,
      (fetchProjects_not_ok s status body hok).2.2.2⟩
  · exact ⟨(fetchProjects_rejected s).1, (fetchProjects_rejected s).2.2.2⟩

/-- Witness of C8: a 200 answer with a one-record collection replaces the
scenario cache, and a 500 answer leaves it and emits the notification. -/
theorem fetchProjects_replaces_or_keeps_witness :
    (Response.ok 200 = true ∧
      (fetchProjects (.resolved 200 (some (scenarioCache.drop 2))) scenarioState).state.allProjects
        = scenarioCache.drop 2) ∧
    (Response.ok 500 = false ∧
      (fetchProjects (.resolved 500 (some (scenarioCache.drop 2))) scenarioState).state.allProjects
        = scenarioState.allProjects ∧
      (fetchProjects (.resolved 500 (some (scenarioCache.drop 2))) scenarioState).state.toasts
        = scenarioState.toasts ++
          [⟨"Failed to load projects. Make sure the server is running.", "error"⟩]) :=
  ⟨⟨by decide,
    (fetchProjects_replaces_or_keeps scenarioState 200 (scenarioCache.drop 2) none .rejected).1
      (by decide)⟩,
   ⟨by decide,
    (fetchProjects_replaces_or_keeps scenarioState 500 (scenarioCache.drop 2)
      (some (scenarioCache.drop 2)) .rejected).2.1 (by decide)⟩⟩

/-! ## Mutation coordinator -/

/-- C9: for every submitted form, when the trimmed student name or the trimmed
project title is empty, or the status is empty, `handleFormSubmit` emits the
validation notification and sends nothing; when all three are non-empty it
calls `addProject` with the trimmed name, the trimmed title and the status,
which sends the add-project request carrying them, and emits no notification. -/
theorem handleFormSubmit_validates (s : State) (name title status : String) :
    ((trim name = "" ∨ trim title = "" ∨ status = "") →
      (handleFormSubmit ⟨some name, some title, some status⟩ s).toasts
        = s.toasts ++ [⟨"Please fill in all fields.", "error"⟩] ∧
      (handleFormSubmit ⟨some name, some title, some status⟩ s).requests = s.requests) ∧
    ((trim name ≠ "" ∧ trim title ≠ "" ∧ status ≠ "") →
      handleFormSubmit ⟨some name, some title, some status⟩ s
        = closeModal (addProject.request (trim name) (trim title) status s) ∧
      (handleFormSubmit ⟨some name, some title, some status⟩ s).requests
        = s.requests ++ [Request.postAddProject (trim name) (trim title) status] ∧
      (handleFormSubmit ⟨some name, some title, some status⟩ s).toasts = s.toasts) := by
  constructor
  · intro h
    have hc : (!truthy (some (trim name)) || !truthy (some (trim title))
        || !truthy (some status)) = true := by
      rcases h with h | h | h <;> simp [truthy, h]
    simp only [handleFormSubmit, Option.map_some', hc, if_true, showToast]
    exact ⟨trivial, trivial⟩
  · rintro ⟨h1, h2, h3⟩
    have hc : (!truthy (some (trim name)) || !truthy (some (trim title))
        || !truthy (some status)) = false := by
      simp [truthy, h1, h2, h3]
    have hrun : handleFormSubmit ⟨some name, some title, some status⟩ s
        = closeModal (addProject.request (trim name) (trim title) status s) := by
      simp only [handleFormSubmit, Option.map_some', hc, Option.getD_some]
      rfl
    rw [hrun]
    exact ⟨rfl, rfl, rfl⟩

/-- Witness of C9: a form with a blank student name is refused, and a form
with padded name and title is sent trimmed. -/
theorem handleFormSubmit_validates_witness :
    ((trim "  " = "" ∨ trim "Solar oven" = "" ∨ "proposal" = "") ∧
      (handleFormSubmit ⟨some "  ", some "Solar oven", some "proposal"⟩ State.pageLoad).requests
        = State.pageLoad.requests) ∧
    ((trim " Cleo " ≠ "" ∧ trim "Solar oven " ≠ "" ∧ "proposal" ≠ "") ∧
      (handleFormSubmit ⟨some " Cleo ", some "Solar oven ", some "proposal"⟩
          State.pageLoad).requests
        = State.pageLoad.requests ++
          [Request.postAddProject (trim " Cleo ") (trim "Solar oven ") "proposal"]) :=
  ⟨⟨by decide,
    ((handleFormSubmit_validates State.pageLoad "  " "Solar oven" "proposal").1
      (by decide)).2⟩,
   ⟨by decide,
    ((handleFormSubmit_validates State.pageLoad " Cleo " "Solar oven " "proposal").2
      (by decide)).2.1⟩⟩

theorem addProject_not_ok (name title status : String) (code : Nat) (body : Option Ack)
    (refresh : Response (List Project)) (s : State) (hok : Response.ok code = false) :
    (addProject name title status (.resolved code body) refresh s).state
      = showToast "Failed to add project. Please try again." "error"
          (addProject.request name title status s) := by
  simp [addProject, addProject.settle, addProject.tryBlock, hok]

/-- C10, as the claim states it, fails: `POST /add-project` answers 500 with
the body `error: "Title already exists"`, and the notification `addProject`
emits is the fixed text, not the message of the server. -/
theorem addProject_ignores_server_message :
    (addProject "Cleo" "Solar oven" "proposal"
        (.resolved 500 (some { error := some "Title already exists" }))
        .rejected State.pageLoad).state.toasts
      = [⟨"Failed to add project. Please try again.", "error"⟩] ∧
    (⟨"Title already exists", "error"⟩ : Toast) ∉
      (addProject "Cleo" "Solar oven" "proposal"
        (.resolved 500 (some { error := some "Title already exists" }))
        .rejected State.pageLoad).state.toasts := by
  decide

/-- C10, amended: for every answer to the add-project request with a status
outside 2xx, whatever its body, the one notification `addProject` emits is the
fixed text `Failed to add project. Please try again.` of type `error`. -/
theorem addProject_rejection_generic_message (name title status : String) (code : Nat)
    (body : Option Ack) (refresh : Response (List Project)) (s : State)
    (hok : Response.ok code = false) :
    (addProject name title status (.resolved code body) refresh s).state.toasts
      = s.toasts ++ [⟨"Failed to add project. Please try again.", "error"⟩] := by
  rw [addProject_not_ok name title status code body refresh s hok]
  rfl

/-- Witness of C10 amended: a 500 answer whose body carries an error message. -/
theorem addProject_rejection_generic_message_witness :
    Response.ok 500 = false ∧
    (addProject "Cleo" "Solar oven" "proposal"
        (.resolved 500 (some { error := some "Title already exists" }))
        .rejected scenarioState).state.toasts
      = scenarioState.toasts ++ [⟨"Failed to add project. Please try again.", "error"⟩] :=
  ⟨by decide,
   addProject_rejection_generic_message "Cleo" "Solar oven" "proposal" 500
     (some { error := some "Title already exists" }) .rejected scenarioState (by decide)⟩

/-! ## Two-phase delete -/

theorem toDigitsCore_ne_nil (b fuel n : Nat) (ds : List Char) (h : ds ≠ []) :
    Nat.toDigitsCore b fuel n ds ≠ [] := by
  induction fuel generalizing n ds with
  | zero => simpa [Nat.toDigitsCore] using h
  | succ fuel ih =>
    simp only [Nat.toDigitsCore]
    split
    · exact List.cons_ne_nil _ _
    · exact ih _ _ (List.cons_ne_nil _ _)

theorem toString_nat_ne_empty (n : Nat) : toString n ≠ "" := by
  show Nat.repr n ≠ ""
  intro h
  have h2 : Nat.toDigits 10 n = [] := by
    have := congrArg String.data h
    simpa [Nat.repr, List.asString] using this
  have h3 : Nat.toDigits 10 n ≠ [] := by
    unfold Nat.toDigits
    simp only [Nat.toDigitsCore]
    split
    · exact List.cons_ne_nil _ _
    · exact toDigitsCore_ne_nil _ _ _ _ (List.cons_ne_nil _ _)
  exact h3 h2

theorem truthy_toString (n : Nat) : truthy (some (toString n)) = true := by
  simp [truthy, toString_nat_ne_empty]

theorem confirmDelete_requests (id : Nat) (title : String) (s : State) :
    (confirmDelete id title s).requests = s.requests ∧
    (confirmDelete id title s).deleteId = some (toString id) := ⟨rfl, rfl⟩

theorem cancelDelete_requests (s : State) :
    (cancelDelete s).requests = s.requests ∧ (cancelDelete s).deleteId = none := ⟨rfl, rfl⟩

theorem executeDelete_pending (id : Nat) (s : State) (h : s.deleteId = some (toString id)) :
    (executeDelete s).requests = s.requests ++ [Request.deleteProject (toString id)] ∧
    (executeDelete s).deleteId = none := by
  simp [executeDelete, h, truthy_toString, deleteProject.request]

theorem executeDelete_idle (s : State) (h : truthy s.deleteId = false) :
    executeDelete s = s := by
  simp [executeDelete, h]

theorem executeDelete_clears (s : State) : truthy (executeDelete s).deleteId = false := by
  cases h : truthy s.deleteId
  · rw [executeDelete_idle s h]
    exact h
  · unfold executeDelete
    rw [if_pos h]
    rfl

theorem runDeleteActions_requests (acts : List DeleteAction) (pending : Option Nat) (s : State)
    (h : s.deleteId = pending.map toString) :
    (runDeleteActions acts s).requests = s.requests ++ expectedDeletes pending acts := by
  induction acts generalizing pending s with
  | nil => simp [runDeleteActions, expectedDeletes]
  | cons a acts ih =>
    have unfold_run : runDeleteActions (a :: acts) s = runDeleteActions acts (a.run s) := rfl
    rw [unfold_run]
    cases a with
    | confirmDelete id title =>
      have hrun : (DeleteAction.confirmDelete id title).run s = confirmDelete id title s := rfl
      rw [hrun, ih (some id) (confirmDelete id title s) rfl]
      rfl
    | cancelDelete =>
      have hrun : DeleteAction.cancelDelete.run s = cancelDelete s := rfl
      rw [hrun, ih none (cancelDelete s) rfl]
      rfl
    | executeDelete =>
      cases pending with
      | none =>
        have hs : executeDelete s = s := executeDelete_idle s (by rw [h]; rfl)
        have hrun : DeleteAction.executeDelete.run s = s := hs
        rw [hrun, ih none s h]
        simp [expectedDeletes]
      | some id =>
        have hp := executeDelete_pending id s h
        have hrun : DeleteAction.executeDelete.run s = executeDelete s := rfl
        rw [hrun, ih none (executeDelete s) hp.2, hp.1]
        simp [expectedDeletes]

/-- C11: from a state with no pending id, the requests a sequence of
`confirmDelete`, `executeDelete` and `cancelDelete` calls sends are the deletes
of the two-phase rule: one per `executeDelete` that has a pending
`confirmDelete(id)`, for that id.  `confirmDelete` alone sends nothing, an
`executeDelete` right after it sends the delete of its id, and after an
`executeDelete` or a `cancelDelete` no id is pending, so that a further
`executeDelete` sends nothing. -/
theorem delete_two_phase (s : State) (acts : List DeleteAction) (id : Nat) (title : String)
    (h : s.deleteId = none) :
    (runDeleteActions acts s).requests = s.requests ++ expectedDeletes none acts ∧
    (executeDelete s).requests = s.requests ∧
    (confirmDelete id title s).requests = s.requests ∧
    (executeDelete (confirmDelete id title s)).requests
      = s.requests ++ [Request.deleteProject (toString id)] ∧
    truthy (executeDelete (confirmDelete id title s)).deleteId = false ∧
    (executeDelete (executeDelete (confirmDelete id title s))).requests
      = (executeDelete (confirmDelete id title s)).requests ∧
    (cancelDelete (confirmDelete id title s)).deleteId = none ∧
    (executeDelete (cancelDelete (confirmDelete id title s))).requests = s.requests := by
  have hexec := executeDelete_pending id (confirmDelete id title s) rfl
  refine ⟨runDeleteActions_requests acts none s h, ?_, rfl, hexec.1, ?_, ?_, rfl, ?_⟩
  · rw [executeDelete_idle s (by rw [h]; rfl)]
  · exact executeDelete_clears _
  · rw [executeDelete_idle _ (executeDelete_clears _)]
  · rw [executeDelete_idle (cancelDelete (confirmDelete id title s)) rfl]
    rfl

/-- Witness of C11: at page load, confirm 2, confirm 1, execute, execute,
confirm 7, cancel, execute sends one delete, for id 1. -/
theorem delete_two_phase_witness :
    State.pageLoad.deleteId = none ∧
    (runDeleteActions
        [.confirmDelete 2 "Library index", .confirmDelete 1 "Solar oven", .executeDelete,
         .executeDelete, .confirmDelete 7 "Kiln", .cancelDelete, .executeDelete]
        State.pageLoad).requests
      = State.pageLoad.requests ++ [Request.deleteProject "1"] :=
  ⟨rfl,
   (delete_two_phase State.pageLoad
      [.confirmDelete 2 "Library index", .confirmDelete 1 "Solar oven", .executeDelete,
       .executeDelete, .confirmDelete 7 "Kiln", .cancelDelete, .executeDelete]
      0 "" rfl).1⟩

/-! ## Failed mutations -/

theorem addProject_rejected (name title status : String) (refresh : Response (List Project))
    (s : State) :
    (addProject name title status .rejected refresh s).state
      = showToast "Failed to add project. Please try again." "error"
          (addProject.request name title status s) := by
  simp [addProject, addProject.settle, addProject.tryBlock]

theorem deleteProject_not_ok (id : String) (code : Nat) (body : Option Ack)
    (refresh : Response (List Project)) (s : State) (hok : Response.ok code = false) :
    (deleteProject id (.resolved code body) refresh s).state
      = showToast "Failed to delete project. Please try again." "error"
          (deleteProject.request id s) ∧
    (deleteProject id (.resolved code body) refresh s).completion = .ok none := by
  simp [deleteProject, deleteProject.settle, deleteProject.tryBlock, hok]

theorem deleteProject_rejected (id : String) (refresh : Response (List Project)) (s : State) :
    (deleteProject id .rejected refresh s).state
      = showToast "Failed to delete project. Please try again." "error"
          (deleteProject.request id s) ∧
    (deleteProject id .rejected refresh s).completion = .ok none := by
  simp [deleteProject, deleteProject.settle, deleteProject.tryBlock]

theorem addProject_failed_completion (name title status : String) (code : Nat)
    (body : Option Ack) (refresh : Response (List Project)) (s : State)
    (hok : Response.ok code = false) :
    (addProject name title status (.resolved code body) refresh s).completion = .ok none ∧
    (addProject name title status .rejected refresh s).completion = .ok none := by
  simp [addProject, addProject.settle, addProject.tryBlock, hok]

theorem failed_toast_frame (msg : String) (req : Request) (s : State) :
    (showToast msg "error" { s with requests := s.requests ++ [req] }).allProjects
      = s.allProjects ∧
    (showToast msg "error" { s with requests := s.requests ++ [req] }).activeFilter
      = s.activeFilter ∧
    (showToast msg "error" { s with requests := s.requests ++ [req] }).requests
      = s.requests ++ [req] ∧
    (showToast msg "error" { s with requests := s.requests ++ [req] }).toasts
      = s.toasts ++ [⟨msg, "error"⟩] := ⟨rfl, rfl, rfl, rfl⟩

/-- C14: when the remote call of a create or of a delete is rejected or
answers a status outside 2xx, `addProject` / `deleteProject` send the mutation
request and no refresh after it, leave the cache and the active filter as they
were, emit their error notification, and their promise resolves (with
`undefined`), so nothing thrown escapes. -/
theorem failed_mutation_keeps_cache (s : State) (name title status id : String) (code : Nat)
    (body : Option Ack) (refresh : Response (List Project)) :
    (Response.ok code = false →
      (addProject name title status (.resolved code body) refresh s).state.allProjects
        = s.allProjects ∧
      (addProject name title status (.resolved code body) refresh s).state.activeFilter
        = s.activeFilter ∧
      (addProject name title status (.resolved code body) refresh s).state.requests
        = s.requests ++ [Request.postAddProject name title status] ∧
      (addProject name title status (.resolved code body) refresh s).state.toasts
        = s.toasts ++ [⟨"Failed to add project. Please try again.", "error"⟩] ∧
      (addProject name title status (.resolved code body) refresh s).completion = .ok none) ∧
    ((addProject name title status .rejected refresh s).state.allProjects = s.allProjects ∧
      (addProject name title status .rejected refresh s).state.activeFilter = s.activeFilter ∧
      (addProject name title status .rejected refresh s).state.requests
        = s.requests ++ [Request.postAddProject name title status] ∧
      (addProject name title status .rejected refresh s).state.toasts
        = s.toasts ++ [⟨"Failed to add project. Please try again.", "error"⟩] ∧
      (addProject name title status .rejected refresh s).completion = .ok none) ∧
    (Response.ok code = false →
      (deleteProject id (.resolved code body) refresh s).state.allProjects = s.allProjects ∧
      (deleteProject id (.resolved code body) refresh s).state.activeFilter
        = s.activeFilter ∧
      (deleteProject id (.resolved code body) refresh s).state.requests
        = s.requests ++ [Request.deleteProject id] ∧
      (deleteProject id (.resolved code body) refresh s).state.toasts
        = s.toasts ++ [⟨"Failed to delete project. Please try again.", "error"⟩] ∧
      (deleteProject id (.resolved code body) refresh s).completion = .ok none) ∧
    ((deleteProject id .rejected refresh s).state.allProjects = s.allProjects ∧
      (deleteProject id .rejected refresh s).state.activeFilter = s.activeFilter ∧
      (deleteProject id .rejected refresh s).state.requests
        = s.requests ++ [Request.deleteProject id] ∧
      (deleteProject id .rejected refresh s).state.toasts
        = s.toasts ++ [⟨"Failed to delete project. Please try again.", "error"⟩] ∧
      (deleteProject id .rejected refresh s).completion = .ok none) := by
  refine ⟨fun hok => ?_, ?_, fun hok => ?_, ?_⟩
  · have hf := failed_toast_frame "Failed to add project. Please try again."
      (Request.postAddProject name title status) s
    rw [addProject_not_ok name title status code body refresh s hok]
    exact ⟨hf.1, hf.2.1, hf.2.2.1, hf.2.2.2,
      (addProject_failed_completion name title status code body refresh s hok).1⟩
  · have hf := failed_toast_frame "Failed to add project. Please try again."
      (Request.postAddProject name title status) s
    rw [addProject_rejected name title status refresh s]
    refine ⟨hf.1, hf.2.1, hf.2.2.1, hf.2.2.2, ?_⟩
    simp [addProject, addProject.settle, addProject.tryBlock]
  · have hf := failed_toast_frame "Failed to delete project. Please try again."
      (Request.deleteProject id) s
    rw [(deleteProject_not_ok id code body refresh s hok).1]
    exact ⟨hf.1, hf.2.1, hf.2.2.1, hf.2.2.2, (deleteProject_not_ok id code body refresh s hok).2⟩
  · have hf := failed_toast_frame "Failed to delete project. Please try again."
      (Request.deleteProject id) s
    rw [(deleteProject_rejected id refresh s).1]
    exact ⟨hf.1, hf.2.1, hf.2.2.1, hf.2.2.2, (deleteProject_rejected id refresh s).2⟩

/-- Witness of C14: on the scenario state with the ongoing filter set, a create
answered 500 and a delete answered 404 leave the cache of three records. -/
theorem failed_mutation_keeps_cache_witness :
    (Response.ok 500 = false ∧
      (addProject "Dee" "Kiln" "proposal" (.resolved 500 none) .rejected
        (filterByStatus .ongoing scenarioState)).state.allProjects
        = (filterByStatus .ongoing scenarioState).allProjects) ∧
    (Response.ok 404 = false ∧
      (deleteProject "2" (.resolved 404 none) .rejected
        (filterByStatus .ongoing scenarioState)).state.allProjects
        = (filterByStatus .ongoing scenarioState).allProjects) :=
  ⟨⟨by decide,
    ((failed_mutation_keeps_cache (filterByStatus .ongoing scenarioState)
      "Dee" "Kiln" "proposal" "2" 500 none .rejected).1 (by decide)).1⟩,
   ⟨by decide,
    ((failed_mutation_keeps_cache (filterByStatus .ongoing scenarioState)
      "Dee" "Kiln" "proposal" "2" 404 none .rejected).2.2.1 (by decide)).1⟩⟩

/-! ## Render escaping -/

/-- C12 at two failing inputs.  With a double quote in the title, the text
written between `onclick="` and its closing `"` holds that quote unescaped, so
the attribute value ends after `confirmDelete(5, 'x`.  With a single quote in
the title, `escapeHTML` returns the title as it is, and the quote closes the
string literal of the `confirmDelete` argument.  The avatar initial of the
name `<Ana>` is the raw `<`, where `escapeHTML` gives `&lt;`. -/
theorem onclick_quotes_unescaped :
    onclickValue doubleQuoteTitle = "confirmDelete(5, 'x\" onmouseover=\"alert(1)')" ∧
    String.mk ((onclickValue doubleQuoteTitle).data.takeWhile (fun c => c != '"'))
      = "confirmDelete(5, 'x" ∧
    escapeHTML singleQuoteTitle.project_title = singleQuoteTitle.project_title ∧
    onclickValue singleQuoteTitle = "confirmDelete(6, 'x'); alert(1); ('')" ∧
    avatarInitial doubleQuoteTitle = "<" ∧
    escapeHTML "<" = "&lt;" := by
  decide

/-! ## Slugs -/

theorem isSlugChar_ne_dash (c : Char) (h : isSlugChar c = true) : c ≠ '-' := by
  intro hc
  rw [hc] at h
  exact absurd h (by decide)

theorem replaceRuns_all (b : Bool) (l : List Char) :
    (replaceRuns b l).all (fun c => isSlugChar c || c == '-') = true := by
  induction l generalizing b with
  | nil => rfl
  | cons c cs ih =>
    unfold replaceRuns
    by_cases hc : isSlugChar c = true
    · simp only [hc, if_true, List.all_cons, Bool.true_or, Bool.true_and]
      exact ih false
    · simp only [hc, Bool.false_eq_true, if_false]
      cases b with
      | true => simpa using ih true
      | false =>
        simp only [Bool.false_eq_true, if_false, List.all_cons]
        rw [ih true]
        simp

theorem replaceRuns_chain (b : Bool) (l : List Char) :
    NoDoubleDash (replaceRuns b l) ∧ (b = true → (replaceRuns b l).head? ≠ some '-') := by
  induction l generalizing b with
  | nil =>
    refine ⟨?_, fun _ => ?_⟩
    · exact List.chain'_nil
    · simp [replaceRuns]
  | cons c cs ih =>
    unfold replaceRuns
    by_cases hc : isSlugChar c = true
    · simp only [hc, if_true]
      refine ⟨?_, fun _ => ?_⟩
      · unfold NoDoubleDash
        rw [List.chain'_cons']
        refine ⟨fun y _ hy => isSlugChar_ne_dash c hc hy.1, (ih false).1⟩
      · simp only [List.head?_cons, ne_eq, Option.some.injEq]
        exact isSlugChar_ne_dash c hc
    · simp only [hc, Bool.false_eq_true, if_false]
      cases b with
      | true => simpa using ih true
      | false =>
        simp only [Bool.false_eq_true, if_false]
        refine ⟨?_, fun h => absurd h (by decide)⟩
        unfold NoDoubleDash
        rw [List.chain'_cons']
        refine ⟨fun y hy hyy => ?_, (ih true).1⟩
        apply (ih true).2 rfl
        rw [Option.mem_def] at hy
        rw [hy, hyy.2]

theorem stripTrailingDash_concat (m : List Char) (x : Char) :
    stripTrailingDash (m ++ [x]) = if x = '-' then m else m ++ [x] := by
  induction m with
  | nil => simp [stripTrailingDash]
  | cons c m ih =>
    cases m with
    | nil =>
      simp only [List.cons_append, List.nil_append, stripTrailingDash]
      split <;> simp
    | cons d m =>
      simp only [List.cons_append] at ih
      show c :: stripTrailingDash (d :: (m ++ [x])) = _
      rw [ih]
      split <;> rfl

theorem stripTrailingDash_initial (l : List Char) : stripTrailingDash l <+: l := by
  rcases List.eq_nil_or_concat l with h | ⟨m, x, h⟩
  · subst h
    exact List.prefix_refl _
  · rw [List.concat_eq_append] at h
    subst h
    rw [stripTrailingDash_concat]
    split
    · exact List.prefix_append m [x]
    · exact List.prefix_refl _

theorem noDoubleDash_init (m : List Char) (h : NoDoubleDash (m ++ ['-'])) :
    m.getLast? ≠ some '-' := by
  unfold NoDoubleDash at h
  rw [List.chain'_append] at h
  intro hm
  exact h.2.2 '-' hm '-' rfl ⟨rfl, rfl⟩

theorem stripTrailingDash_last (l : List Char) (h : NoDoubleDash l) :
    (stripTrailingDash l).getLast? ≠ some '-' := by
  rcases List.eq_nil_or_concat l with hl | ⟨m, x, hl⟩
  · subst hl
    simp [stripTrailingDash]
  · rw [List.concat_eq_append] at hl
    subst hl
    rw [stripTrailingDash_concat]
    by_cases hx : x = '-'
    · rw [if_pos hx]
      subst hx
      exact noDoubleDash_init m h
    · rw [if_neg hx, List.getLast?_concat]
      simpa using hx

theorem head?_of_initial (r l : List Char) (h : r <+: l) (hl : l.head? ≠ some '-') :
    r.head? ≠ some '-' := by
  obtain ⟨t, rfl⟩ := h
  cases r with
  | nil => simp
  | cons a r => simpa using hl

theorem stripEdgeDashes_eq (l : List Char) :
    (∃ cs, l = '-' :: cs ∧ stripEdgeDashes l = stripTrailingDash cs) ∨
    (l.head? ≠ some '-' ∧ stripEdgeDashes l = stripTrailingDash l) := by
  cases l with
  | nil => exact Or.inr ⟨by simp, rfl⟩
  | cons c cs =>
    by_cases hc : c = '-'
    · subst hc
      exact Or.inl ⟨cs, rfl, rfl⟩
    · refine Or.inr ⟨by simpa using hc, ?_⟩
      unfold stripEdgeDashes
      split
      · rename_i heq
        exact absurd (List.cons.inj heq).1 hc
      · rfl

theorem stripEdgeDashes_segment (l : List Char) : stripEdgeDashes l <:+: l := by
  rcases stripEdgeDashes_eq l with ⟨cs, hl, he⟩ | ⟨_, he⟩
  · rw [he, hl]
    exact (stripTrailingDash_initial cs).isInfix.trans (List.suffix_cons '-' cs).isInfix
  · rw [he]
    exact (stripTrailingDash_initial l).isInfix

theorem stripEdgeDashes_head (l : List Char) (h : NoDoubleDash l) :
    (stripEdgeDashes l).head? ≠ some '-' := by
  rcases stripEdgeDashes_eq l with ⟨cs, hl, he⟩ | ⟨hh, he⟩
  · rw [he]
    subst hl
    unfold NoDoubleDash at h
    rw [List.chain'_cons'] at h
    apply head?_of_initial _ _ (stripTrailingDash_initial cs)
    intro hcs
    exact h.1 '-' hcs ⟨rfl, rfl⟩
  · rw [he]
    exact head?_of_initial _ _ (stripTrailingDash_initial l) hh

theorem stripEdgeDashes_last (l : List Char) (h : NoDoubleDash l) :
    (stripEdgeDashes l).getLast? ≠ some '-' := by
  rcases stripEdgeDashes_eq l with ⟨cs, hl, he⟩ | ⟨_, he⟩
  · rw [he]
    subst hl
    unfold NoDoubleDash at h
    rw [List.chain'_cons'] at h
    exact stripTrailingDash_last cs h.2
  · rw [he]
    exact stripTrailingDash_last l h

theorem replaceRuns_true_eq (cs : List Char) :
    replaceRuns true cs = replaceRuns false (cs.dropWhile (fun d => !isSlugChar d)) := by
  induction cs with
  | nil => rfl
  | cons c cs ih =>
    by_cases hc : isSlugChar c = true
    · simp [replaceRuns, List.dropWhile, hc]
    · simp [replaceRuns, List.dropWhile, hc, ih]

theorem replaceRuns_eq_collapseRuns (l : List Char) : replaceRuns false l = collapseRuns l := by
  induction l using collapseRuns.induct with
  | case1 => simp [replaceRuns, collapseRuns]
  | case2 c cs hc ih =>
    rw [collapseRuns]
    simp [replaceRuns, hc, ih]
  | case3 c cs hc ih =>
    rw [collapseRuns]
    simp [replaceRuns, hc, replaceRuns_true_eq, ih]

theorem dropWhile_dash_eq_self (l : List Char) (h : l.head? ≠ some '-') :
    l.dropWhile (fun c => c == '-') = l := by
  cases l with
  | nil => rfl
  | cons c cs =>
    have hc : (c == '-') = false := by simpa using h
    simp only [List.dropWhile, hc]

theorem rdropWhile_dash_eq (m : List Char) (h : NoDoubleDash m) :
    (m.reverse.dropWhile (fun c => c == '-')).reverse = stripTrailingDash m := by
  rcases List.eq_nil_or_concat m with hm | ⟨m₁, x, hm⟩
  · subst hm
    rfl
  · rw [List.concat_eq_append] at hm
    subst hm
    rw [stripTrailingDash_concat]
    show List.rdropWhile (fun c => c == '-') (m₁ ++ [x]) = _
    rw [List.rdropWhile_concat]
    by_cases hx : x = '-'
    · subst hx
      simp only [beq_self_eq_true, if_true]
      rw [List.rdropWhile_eq_self_iff]
      intro hl hlast
      apply noDoubleDash_init m₁ h
      rw [List.getLast?_eq_getLast _ hl]
      simpa using hlast
    · simp [hx]

theorem trimDashes_eq_stripEdgeDashes (l : List Char) (h : NoDoubleDash l) :
    trimDashes l = stripEdgeDashes l := by
  unfold trimDashes
  rcases stripEdgeDashes_eq l with ⟨cs, hl, he⟩ | ⟨hh, he⟩
  · rw [he]
    subst hl
    unfold NoDoubleDash at h
    rw [List.chain'_cons'] at h
    have hcs : cs.head? ≠ some '-' := fun hcs => h.1 '-' hcs ⟨rfl, rfl⟩
    have hd : ('-' :: cs).dropWhile (fun c => c == '-') = cs := by
      simp only [List.dropWhile, beq_self_eq_true]
      exact dropWhile_dash_eq_self cs hcs
    rw [hd]
    exact rdropWhile_dash_eq cs h.2
  · rw [he, dropWhile_dash_eq_self l hh]
    exact rdropWhile_dash_eq l h

/-- C13: for every string, `slugify` gives the lower-cased string with each
maximal run of characters outside `[a-z0-9]` replaced by one `-` and the `-`
at its two ends removed; the result holds only characters of `[a-z0-9]` and
`-`, nowhere two `-` in a row, and neither starts nor ends with `-`. -/
theorem slugify_shape (str : String) :
    slugify str = slugifySpec str ∧
    (slugify str).data.all (fun c => isSlugChar c || c == '-') = true ∧
    ¬ List.IsInfix ['-', '-'] (slugify str).data ∧
    (slugify str).data.head? ≠ some '-' ∧
    (slugify str).data.getLast? ≠ some '-' := by
  have hchain := (replaceRuns_chain false (toLowerCase str).data).1
  have hseg := stripEdgeDashes_segment (replaceRuns false (toLowerCase str).data)
  refine ⟨?_, ?_, ?_, ?_, ?_⟩
  · unfold slugify slugifySpec
    rw [← replaceRuns_eq_collapseRuns, trimDashes_eq_stripEdgeDashes _ hchain]
  · show (stripEdgeDashes (replaceRuns false (toLowerCase str).data)).all _ = true
    have hall := replaceRuns_all false (toLowerCase str).data
    rw [List.all_eq_true] at hall ⊢
    intro c hc
    exact hall c (hseg.subset hc)
  · show ¬ List.IsInfix ['-', '-'] (stripEdgeDashes (replaceRuns false (toLowerCase str).data))
    intro hdd
    have h2 : NoDoubleDash ['-', '-'] := List.Chain'.infix hchain (hdd.trans hseg)
    unfold NoDoubleDash at h2
    rw [List.chain'_cons'] at h2
    exact h2.1 '-' rfl ⟨rfl, rfl⟩
  · exact stripEdgeDashes_head _ hchain
  · exact stripEdgeDashes_last _ hchain

end ProjectManager
